import Mathlib

/-!
Shallow embedding of `src/OpenSprinkler.py` (Indigo-OpenSprinkler-Plugin).

The embedded core is the snapshot-decoding layer:
* the controller property registry and its resolution against a snapshot
  (`OpenSprinklerController.__init__`, lines 48-130),
* `getProperty` / `setProperty`,
* the station bitmask decoder (lines 135-150),
* the program decoder (`OpenSprinklerProgram.__init__` and its setters),
* the overall assembly including its `try/except` error swallowing
  (lines 131-166).

Python values coming from the parsed JSON snapshot are modelled by `PyVal`
(JSON integers, strings, arrays and objects, plus Python `None`).  The
snapshot itself is an association list of sections, each an association
list of abbreviated keys, matching the input contract (one JSON object per
section).  Python exceptions are modelled with `Except`, where the error
payload carries the partially mutated state at the point the exception was
raised, because the source's `try/except` blocks swallow the exception and
keep the partially updated object.
-/

/-- A Python/JSON value as handled by the decoder. -/
inductive PyVal where
  | none
  | int (n : Int)
  | str (s : String)
  | list (xs : List PyVal)
  | obj (xs : List (String × PyVal))

/-- Python truthiness of a `PyVal` (used by `True if myDict['settings']['en'] else False`). -/
def pyTruthy : PyVal → Bool
  | .none => false
  | .int n => n != 0
  | .str s => s != ""
  | .list xs => !xs.isEmpty
  | .obj xs => !xs.isEmpty

/-- One section of the snapshot: a JSON object of abbreviated keys. -/
abbrev PySection := List (String × PyVal)

/-- The full snapshot: a JSON object of sections. -/
abbrev Snapshot := List (String × PySection)

/-- Dictionary lookup (`d[k]` guarded by `k in d`). -/
def lookupKey (l : List (String × α)) (k : String) : Option α :=
  (l.find? (fun p => p.1 == k)).map (fun p => p.2)

/-- `myDict[section][key]` with both memberships checked; `none` when either is absent. -/
def sectGet (d : Snapshot) (sec key : String) : Option PyVal :=
  match lookupKey d sec with
  | Option.none => Option.none
  | Option.some s => lookupKey s key

/-- `v[0]` on a snapshot value: succeeds when `v` is a non-empty JSON array
(`myDict['stations']['ignore_rain'][0]` and friends). -/
def pyIndex0 : Option PyVal → Option PyVal
  | Option.some (.list (x :: _)) => Option.some x
  | _ => Option.none

/-- One entry of `controller_properties` (source lines 48-121).  Python uses a
dict with keys `name`, `source`, `abbrev` (or `formula` for derived entries)
and `val`; non-derived entries have no `formula` key and derived entries have
no `abbrev` key, modelled here by an empty string in the unused field. -/
structure PropDef where
  name : String
  source : String
  abbr : String
  formula : String
  val : PyVal

/-- The `controller_properties` registry exactly as initialised by
`OpenSprinklerController.__init__` (source lines 48-121), in source order. -/
def controller_properties : List PropDef := [
  ⟨"device_time",                  "settings", "devt",      "", .int 0⟩,
  ⟨"num_boards",                   "settings", "nbrd",      "", .int 0⟩,
  ⟨"enabled",                      "settings", "en",        "", .int 0⟩,
  ⟨"rain_delay",                   "settings", "rd",        "", .int 0⟩,
  ⟨"rain_sensor_status",           "settings", "rs",        "", .int 0⟩,
  ⟨"rain_delay_stop_time",         "settings", "rdst",      "", .int 0⟩,
  ⟨"location",                     "settings", "loc",       "", .str ""⟩,
  ⟨"wunderground_api_key",         "settings", "wtkey",     "", .str ""⟩,
  ⟨"sunrise",                      "settings", "sunrise",   "", .int 0⟩,
  ⟨"sunset",                       "settings", "sunset",    "", .int 0⟩,
  ⟨"external_ip_address",          "settings", "eip",       "", .int 0⟩,
  ⟨"last_weather_call",            "settings", "lwc",       "", .int 0⟩,
  ⟨"last_successful_weather_call", "settings", "lswc",      "", .int 0⟩,
  ⟨"last_run_record",              "settings", "lrun",      "", .int 0⟩,
  ⟨"weather_options",              "settings", "wto",       "", .obj []⟩,
  ⟨"firmware_version",             "options",  "fwv",       "", .int 0⟩,
  ⟨"firmware_minor_version",       "options",  "fwm",       "", .int 0⟩,
  ⟨"time_zone",                    "options",  "tz",        "", .int 0⟩,
  ⟨"ntp_synch_flag",               "options",  "ntp",       "", .int 0⟩,
  ⟨"use_dhcp_flag",                "options",  "dhcp",      "", .int 0⟩,
  ⟨"ip1",                          "options",  "ip1",       "", .int 0⟩,
  ⟨"ip2",                          "options",  "ip2",       "", .int 0⟩,
  ⟨"ip3",                          "options",  "ip3",       "", .int 0⟩,
  ⟨"ip4",                          "options",  "ip4",       "", .int 0⟩,
  ⟨"gw1",                          "options",  "gw1",       "", .int 0⟩,
  ⟨"gw2",                          "options",  "gw2",       "", .int 0⟩,
  ⟨"gw3",                          "options",  "gw3",       "", .int 0⟩,
  ⟨"gw4",                          "options",  "gw4",       "", .int 0⟩,
  ⟨"ntp1",                         "options",  "ntp1",      "", .int 0⟩,
  ⟨"ntp2",                         "options",  "ntp2",      "", .int 0⟩,
  ⟨"ntp3",                         "options",  "ntp3",      "", .int 0⟩,
  ⟨"ntp4",                         "options",  "ntp4",      "", .int 0⟩,
  ⟨"hp0",                          "options",  "hp0",       "", .int 0⟩,
  ⟨"hp1",                          "options",  "hp1",       "", .int 0⟩,
  ⟨"hardware_version",             "options",  "hwv",       "", .int 0⟩,
  ⟨"hardware_type",                "options",  "hwt",       "", .int 0⟩,
  ⟨"num_expansion_boards",         "options",  "ext",       "", .int 0⟩,
  ⟨"station_delay_time",           "options",  "sdt",       "", .int 0⟩,
  ⟨"master_station_1",             "options",  "mas",       "", .int 0⟩,
  ⟨"master_station_2",             "options",  "mas2",      "", .int 0⟩,
  ⟨"master_station_1_on_delay",    "options",  "mton",      "", .int 0⟩,
  ⟨"master_station_2_on_delay",    "options",  "mton2",     "", .int 0⟩,
  ⟨"master_station_1_off_delay",   "options",  "mtof",      "", .int 0⟩,
  ⟨"master_station_2_off_delay",   "options",  "mtof2",     "", .int 0⟩,
  ⟨"use_rain_sensor",              "options",  "urs",       "", .int 0⟩,
  ⟨"rain_sensor_type",             "options",  "rso",       "", .int 0⟩,
  ⟨"water_level",                  "options",  "wl",        "", .int 0⟩,
  ⟨"operation_enabled",            "options",  "den",       "", .int 0⟩,
  ⟨"ignore_password",              "options",  "ipas",      "", .int 0⟩,
  ⟨"device_id",                    "options",  "devid",     "", .int 0⟩,
  ⟨"lcd_contrast",                 "options",  "con",       "", .int 0⟩,
  ⟨"lcd_backlight",                "options",  "lit",       "", .int 0⟩,
  ⟨"lcd_dimming",                  "options",  "dim",       "", .int 0⟩,
  ⟨"boost_time",                   "options",  "bst",       "", .int 0⟩,
  ⟨"weather_adjustment_method",    "options",  "uwt",       "", .int 0⟩,
  ⟨"enable_logging",               "options",  "lg",        "", .int 0⟩,
  ⟨"fpr0",                         "options",  "fpr0",      "", .int 0⟩,
  ⟨"fpr1",                         "options",  "fpr1",      "", .int 0⟩,
  ⟨"remote_extension_mode",        "options",  "re",        "", .int 0⟩,
  ⟨"detected_extension_boards",    "options",  "dexp",      "", .int 0⟩,
  ⟨"max_extension_boards",         "options",  "mexp",      "", .int 0⟩,
  ⟨"station_names",                "stations", "snames",    "", .list []⟩,
  ⟨"station_status",               "status",   "sn",        "", .list []⟩,
  ⟨"num_stations",                 "status",   "nstations", "", .int 0⟩,
  ⟨"num_programs",                 "programs", "nprogs",    "", .int 0⟩,
  ⟨"max_programs",                 "programs", "mnp",       "", .int 0⟩,
  ⟨"max_start_times",              "programs", "mnst",      "", .int 0⟩,
  ⟨"program_name_size",            "programs", "pnsize",    "", .int 0⟩,
  ⟨"ntp_ipv4_address",             "derived",  "", "",                  .str ""⟩,
  ⟨"dhcp_ipv4_address",            "derived",  "", "",                  .str ""⟩,
  ⟨"gw_ipv4_address",              "derived",  "", "",                  .str ""⟩,
  ⟨"port_number",                  "derived",  "", "hp1 << 8 + hp0",    .int 0⟩,
  ⟨"flow_pulse_rate",              "derived",  "", "fpr1 << 8 + fpr0",  .str ""⟩]

/-- The per-property resolution step of the registry loop (source lines
124-130): when the entry is not derived, its section exists in the snapshot
and its abbreviation exists in the section, the value is overwritten with
the raw snapshot value; otherwise the entry is untouched.  (The source's
`is not 'derived'` is an identity test on interned string literals,
equivalent to inequality.) -/
def resolveProp (myDict : Snapshot) (p : PropDef) : PropDef :=
  if p.source ≠ "derived" then
    match lookupKey myDict p.source with
    | Option.none => p
    | Option.some sec =>
      match lookupKey sec p.abbr with
      | Option.none => p
      | Option.some v => { p with val := v }
  else p

/-- The registry after the resolution loop.  The source mutates each dict of
`controller_properties` in place; each entry is updated independently, so the
loop is a `map`. -/
def resolvedProperties (myDict : Snapshot) : List PropDef :=
  controller_properties.map (resolveProp myDict)

/-- `OpenSprinklerController.getProperty` (source lines 201-209), modelled
faithfully: the `else: raise` sits INSIDE the `for` loop, so only the first
registry entry is ever inspected — any other requested name raises on the
first iteration.  (At runtime the raise itself is a `NameError`, because the
source spells the exception class `UnknownPropertyError` while only
`OS_UnknownPropertyError` is defined; either way an exception escapes, which
is what the error branch models.)  An empty property list falls through the
loop and returns Python `None`. -/
def getProperty (props : List PropDef) (var_name : String) : Except String PyVal :=
  match props with
  | [] => .ok .none
  | p :: _ => if p.name = var_name then .ok p.val else .error var_name

/-- `OpenSprinklerController.setProperty` (source lines 297-307): every entry
whose name matches is overwritten; unknown names are silently ignored (the
loop simply finds no match and the function returns `None`).  The inner
`try/except` is dead code since a plain attribute assignment cannot fail. -/
def setProperty (props : List PropDef) (var_name : String) (var_value : PyVal) :
    List PropDef :=
  props.map (fun p => if p.name = var_name then { p with val := var_value } else p)

/-- `OpenSprinklerStation` (source lines 336-355): a plain record of the seven
constructor arguments.  The four flag fields store the raw masked integers
`byte & 2**idx` exactly as the source does (they are ints, not booleans;
Python treats a non-zero value as true). -/
structure Station where
  station_name : PyVal
  status : PyVal
  station_id : Nat
  ignore_rain_flag : Int
  is_sequential_flag : Int
  is_disabled_flag : Int
  is_special_flag : Int

/-- The station `while` loop of `OpenSprinklerController.__init__` (source
lines 140-150), with `remaining` iterations left and current index `idx`.
Each iteration reads `snames[idx]` and `sn[idx]` and masks the four flag
bytes with `2**idx`; an `IndexError` (short array), a missing `snames`/`sn`
key or a `TypeError` (flag byte not an integer) raises, modelled by the
error branch carrying the stations appended so far — the `except` in the
caller swallows the exception but keeps those appends. -/
def stationLoop (myDict : Snapshot) (ir seqB dis spe : PyVal) :
    Nat → Nat → List Station → Except (List Station) (List Station)
  | 0, _, acc => .ok acc
  | remaining + 1, idx, acc =>
    match sectGet myDict "stations" "snames", sectGet myDict "status" "sn",
          ir, seqB, dis, spe with
    | Option.some (.list ns), Option.some (.list ss),
      .int irv, .int seqv, .int disv, .int spev =>
      match ns.get? idx, ss.get? idx with
      | Option.some station_name, Option.some status =>
        stationLoop myDict ir seqB dis spe remaining (idx + 1)
          (acc ++ [⟨station_name, status, idx,
                    Int.land irv (2 ^ idx), Int.land seqv (2 ^ idx),
                    Int.land disv (2 ^ idx), Int.land spev (2 ^ idx)⟩])
      | _, _ => .error acc
    | _, _, _, _, _, _ => .error acc

/-- A decoded repeating start time: the dict
`{'basis': ..., 'sign': ..., 'offset': ...}` built at source line 655. -/
structure RepStartTime where
  basis : String
  sign : String
  offset : Int
deriving DecidableEq

/-- One element of `program_schedule`: either a `{day_name: is_scheduled}`
dict appended by `setWeekdaySchedule` or the single
`{'interval': d1, 'delay': d0}` dict appended by `setIntervalSchedule`. -/
inductive ScheduleElem where
  | day (name : String) (scheduled : Bool)
  | interval (interval : PyVal) (delay : PyVal)

/-- The mutable fields of `OpenSprinklerProgram`, with their class-level
defaults (source lines 455-466) as the initial state. -/
structure ProgState where
  program_name : PyVal
  program_enabled : Bool
  program_use_weather_adjustment : Bool
  program_restriction : String
  program_schedule_type : String
  program_start_time_type : String
  program_schedule : List ScheduleElem
  program_fixed_start_times : List Int
  program_repeating_start_times : List RepStartTime
  program_zone_durations : PyVal

/-- Class-level defaults of `OpenSprinklerProgram` (source lines 456-466). -/
def defaultProgState : ProgState :=
  ⟨.str "", false, false, "", "", "", [], [], [], .list []⟩

/-- `OpenSprinklerProgram.week` (source line 455). -/
def week : List String :=
  ["Monday", "Tuesday", "Wednesday", "Thursday", "Friday", "Saturday", "Sunday"]

/-- `setWeekdaySchedule` (source lines 596-612): builds the 7-entry
Monday-first list `{day_name: bool(d0 & 2**day_index)}`.  If `d0` is not an
integer the mask raises a `TypeError` on the first iteration, before any
element reaches `program_schedule`, so the field keeps its previous value
and the exception propagates to the program constructor's `except`. -/
def setWeekdaySchedule (s : ProgState) (d0 : PyVal) : Except ProgState ProgState :=
  match d0 with
  | .int n =>
    .ok { s with program_schedule :=
          week.enum.map (fun p => .day p.2 (Int.land n (2 ^ p.1) != 0)) }
  | _ => .error s

/-- `setIntervalSchedule` (source lines 614-622): appends the single dict
`{'interval': d1, 'delay': d0}` built from ITS OWN parameters `(d0, d1)`.
Note the caller `setSchedule` passes its arguments swapped. -/
def setIntervalSchedule (s : ProgState) (d0 d1 : PyVal) : ProgState :=
  { s with program_schedule := [.interval d1 d0] }

/-- `setSchedule` (source lines 590-594).  The non-Weekday branch calls
`self.setIntervalSchedule(d1, d0)` — arguments swapped relative to that
function's own `(d0, d1)` parameter order. -/
def setSchedule (s : ProgState) (pstype : String) (d0 d1 : PyVal) :
    Except ProgState ProgState :=
  if pstype = "Weekday" then setWeekdaySchedule s d0
  else .ok (setIntervalSchedule s d1 d0)

/-- `setFixedStartTimes` (source lines 630-639) first clears both start-time
lists, then runs `for sTime in sTimes:` — but its parameter is named
`startTimes`, not `sTimes`, so the loop always raises `NameError` (an
unbound local) before any iteration.  The two cleared lists survive on the
object; the exception propagates to the program constructor's `except`. -/
def setFixedStartTimes (s : ProgState) (_startTimes : PyVal) :
    Except ProgState ProgState :=
  .error { s with program_fixed_start_times := [],
                  program_repeating_start_times := [] }

/-- The per-element decode of `setRepeatingStartTimes` (source lines
646-655) for an integer element that passed `sTime > 0`. -/
def decodeRepeating (t : Int) : RepStartTime :=
  { basis := if Int.land t 0x2000 != 0 then "Sunset"
             else if Int.land t 0x1000 != 0 then "Sunrise"
             else "Midnight"
  , sign := if Int.land t 0x800 != 0 then "plus" else "minus"
  , offset := Int.land t 0x7ff }

/-- The `for sTime in sTimes` loop of `setRepeatingStartTimes` (source lines
644-660): skips elements failing `sTime > 0`, decodes and appends the rest.
A non-integer element raises a `TypeError` at the `sTime > 0` comparison;
the error branch carries the elements appended before that point. -/
def repeatingLoop (acc : List RepStartTime) :
    List PyVal → Except (List RepStartTime) (List RepStartTime)
  | [] => .ok acc
  | x :: rest =>
    match x with
    | .int t =>
      if 0 < t then repeatingLoop (acc ++ [decodeRepeating t]) rest
      else repeatingLoop acc rest
    | _ => .error acc

/-- `setRepeatingStartTimes` (source lines 641-660): clears both lists, then
iterates over `sTimes`.  Iterating a non-list value (or comparing a
non-integer element with `0`) raises after the clears, leaving the elements
appended so far. -/
def setRepeatingStartTimes (s : ProgState) (sTimes : PyVal) :
    Except ProgState ProgState :=
  match sTimes with
  | .list xs =>
    match repeatingLoop [] xs with
    | .ok l => .ok { s with program_fixed_start_times := [],
                            program_repeating_start_times := l }
    | .error l => .error { s with program_fixed_start_times := [],
                                  program_repeating_start_times := l }
  | _ => .error { s with program_fixed_start_times := [],
                         program_repeating_start_times := [] }

/-- `setStartTimes` (source lines 624-628). -/
def setStartTimes (s : ProgState) (psttype : String) (sTimes : PyVal) :
    Except ProgState ProgState :=
  if psttype = "Fixed" then setFixedStartTimes s sTimes
  else setRepeatingStartTimes s sTimes

/-- `setDurations` (source lines 662-667): stores the argument as given. -/
def setDurations (s : ProgState) (durations : PyVal) : ProgState :=
  { s with program_zone_durations := durations }

/-- Steps (7)-(9) of `OpenSprinklerProgram.__init__` (source lines 478-480):
`setSchedule`, `setStartTimes`, `setDurations`, each dispatching on the
string field assigned by the earlier steps, with a failure aborting the
remaining steps (the constructor's `except` then keeps the partial state). -/
def programInitTail (s : ProgState) (days0 days1 sTimes durs : PyVal) :
    ProgState :=
  match setSchedule s s.program_schedule_type days0 days1 with
  | .error s => s
  | .ok s7 =>
    match setStartTimes s7 s7.program_start_time_type sTimes with
    | .error s => s
    | .ok s8 => setDurations s8 durs

/-- `OpenSprinklerProgram.__init__` (source lines 468-483).  The whole body
runs inside `try/except`: a failing step logs and aborts, and the object
keeps everything assigned before the failure.  `flags & 1` raises a
`TypeError` when `flags` is not an integer, so then only the name is set. -/
def programInit (pname flags days0 days1 sTimes durs : PyVal) : ProgState :=
  let s1 := { defaultProgState with program_name := pname }
  match flags with
  | .int f =>
    let s2 := { s1 with program_enabled := Int.land f 1 != 0 }
    let s3 := { s2 with program_use_weather_adjustment := Int.land f 2 != 0 }
    let s4 := { s3 with program_restriction :=
                if Int.land f 4 != 0 then "Odd"
                else if Int.land f 8 != 0 then "Even" else "None" }
    let s5 := { s4 with program_schedule_type :=
                if !(Int.land f 16 != 0 || Int.land f 32 != 0) then "Weekday"
                else "Interval" }
    let s6 := { s5 with program_start_time_type :=
                if Int.land f 64 != 0 then "Fixed" else "Repeating" }
    programInitTail s6 days0 days1 sTimes durs
  | _ => s1

/-- The program `while` loop of `OpenSprinklerController.__init__` (source
lines 153-164): per iteration it reads `myDict['programs']['pd'][idx]`,
unpacks the six tuple positions (`IndexError` when the tuple is short) and
appends the constructed program.  `OpenSprinklerProgram.__init__` itself
never raises — its own `try/except` swallows everything — so once the tuple
unpacks, the append happens. -/
def programLoop (myDict : Snapshot) :
    Nat → Nat → List ProgState → Except (List ProgState) (List ProgState)
  | 0, _, acc => .ok acc
  | remaining + 1, idx, acc =>
    match sectGet myDict "programs" "pd" with
    | Option.some (.list pds) =>
      match pds.get? idx with
      | Option.some (.list tup) =>
        match tup.get? 0, tup.get? 1, tup.get? 2, tup.get? 3, tup.get? 4,
              tup.get? 5 with
        | Option.some flags, Option.some days0, Option.some days1,
          Option.some startTimes, Option.some durations,
          Option.some program_name =>
          programLoop myDict remaining (idx + 1)
            (acc ++ [programInit program_name flags days0 days1 startTimes
                       durations])
        | _, _, _, _, _, _ => .error acc
      | _ => .error acc
    | _ => .error acc

/-- The observable state of an `OpenSprinklerController` instance.
`controller_stations` and `controller_programs` are CLASS attributes in the
source (lines 43-44): `__init__` only ever calls `.append(...)` on them, so
all instances (and successive constructions) share and extend the same two
lists.  Their pre-construction contents are therefore inputs of
`controllerInit` below. -/
structure ControllerState where
  controller_properties : List PropDef
  controller_stations : List Station
  controller_programs : List ProgState
  controller_enabled : Bool

/-- `OpenSprinklerController.__init__` (source lines 47-167).  First the
registry is rebuilt and resolved (lines 48-130, outside any `try`), then the
`try` block of lines 131-164 runs: set `controller_enabled`, fetch the four
flag bytes, fetch `nstations`, run the station loop, then call
`self.getProperty('num_programs')` and run the program loop.  Any exception
lands in `except: None` (line 165-166), keeping whatever was already
assigned or appended.  `sharedStations`/`sharedPrograms` are the current
contents of the class-level lists (empty for the first construction in a
fresh process). -/
def controllerInit (sharedStations : List Station)
    (sharedPrograms : List ProgState) (myDict : Snapshot) : ControllerState :=
  let props := resolvedProperties myDict
  let s0 : ControllerState := ⟨props, sharedStations, sharedPrograms, false⟩
  match sectGet myDict "settings" "en" with
  | Option.none => s0
  | Option.some env =>
    let s1 := { s0 with controller_enabled := pyTruthy env }
    match pyIndex0 (sectGet myDict "stations" "ignore_rain"),
          pyIndex0 (sectGet myDict "stations" "stn_seq"),
          pyIndex0 (sectGet myDict "stations" "stn_dis"),
          pyIndex0 (sectGet myDict "stations" "stn_spe") with
    | Option.some ir, Option.some seqB, Option.some dis, Option.some spe =>
      match sectGet myDict "status" "nstations" with
      | Option.some (.int nst) =>
        match stationLoop myDict ir seqB dis spe nst.toNat 0
                s1.controller_stations with
        | .error sts => { s1 with controller_stations := sts }
        | .ok sts =>
          let s2 := { s1 with controller_stations := sts }
          match getProperty s2.controller_properties "num_programs" with
          | .error _ => s2
          | .ok npv =>
            match npv with
            | .int np =>
              match programLoop myDict np.toNat 0 s2.controller_programs with
              | .error ps => { s2 with controller_programs := ps }
              | .ok ps => { s2 with controller_programs := ps }
            | _ => s2
      | _ => s1
    | _, _, _, _ => s1

/-- Merge the two branches of a swallowed exception: the Python object ends
up in the carried state whether or not the step raised. -/
def exVal : Except ProgState ProgState → ProgState
  | .ok s => s
  | .error s => s

/-- The repeating start-time decoding as the spec words it: bit 13 selects
`Sunset`, else bit 12 selects `Sunrise`, else `Midnight`; bit 11 selects the
sign; the offset is the low 11 bits.  Stated over the bits of the
underlying natural number, for comparison with the source's mask
arithmetic in `decodeRepeating`. -/
def specRepeatingStartTime (t : Int) : RepStartTime :=
  { basis := if t.toNat.testBit 13 then "Sunset"
             else if t.toNat.testBit 12 then "Sunrise" else "Midnight"
  , sign := if t.toNat.testBit 11 then "plus" else "minus"
  , offset := ((t.toNat % 2 ^ 11 : Nat) : Int) }

/-- The station record the loop body builds at index `j` (source lines
142-148), when the per-index reads succeed: name and status by direct
index, the four flags by masking the respective byte with `2**j`. -/
def builtStation (ns ss : List PyVal) (irv seqv disv spev : Int) (j : Nat) :
    Station :=
  ⟨(ns.get? j).getD .none, (ss.get? j).getD .none, j,
   Int.land irv (2 ^ j), Int.land seqv (2 ^ j),
   Int.land disv (2 ^ j), Int.land spev (2 ^ j)⟩

/-- The spec's §8 example snapshot: three stations, `ignore_rain`
byte `0b101`. -/
def c6Snap : Snapshot :=
  [("settings", [("en", .int 1)]),
   ("stations", [("ignore_rain", .list [.int 5]), ("stn_seq", .list [.int 0]),
                 ("stn_dis", .list [.int 0]), ("stn_spe", .list [.int 0]),
                 ("snames", .list [.str "a", .str "b", .str "c"])]),
   ("status", [("sn", .list [.int 0, .int 0, .int 0]),
               ("nstations", .int 3)])]

/-- A snapshot whose `nstations` (2) exceeds the length of `snames` (1). -/
def c3Snap : Snapshot :=
  [("settings", [("en", .int 1)]),
   ("stations", [("ignore_rain", .list [.int 5]), ("stn_seq", .list [.int 0]),
                 ("stn_dis", .list [.int 0]), ("stn_spe", .list [.int 0]),
                 ("snames", .list [.str "a"])]),
   ("status", [("sn", .list [.int 0, .int 0]), ("nstations", .int 2)])]

/-- The snapshot used to exercise repeated construction: one station, one
program. -/
def goodSnap : Snapshot :=
  [("settings", [("en", .int 1)]),
   ("options", [("fwv", .int 219)]),
   ("stations", [("ignore_rain", .list [.int 5]), ("stn_seq", .list [.int 0]),
                 ("stn_dis", .list [.int 0]), ("stn_spe", .list [.int 0]),
                 ("snames", .list [.str "S1"])]),
   ("status", [("sn", .list [.int 0]), ("nstations", .int 1)]),
   ("programs", [("nprogs", .int 1),
                 ("pd", .list [.list [.int 1, .int 0, .int 0,
                                      .list [.int 0], .list [.int 0],
                                      .str "P"]])])]

/-! ### Helper lemmas -/

/-- Masking with a single power of two is non-zero exactly when that bit is
set. -/
theorem natLand_two_pow_ne_zero (b i : Nat) :
    (b &&& 2 ^ i ≠ 0) ↔ b.testBit i := by
  constructor
  · intro h
    by_contra hbit
    apply h
    apply Nat.eq_of_testBit_eq
    intro j
    simp only [Nat.testBit_and, Nat.testBit_two_pow, Nat.zero_testBit]
    by_cases hj : i = j
    · subst hj
      simp [Bool.eq_false_iff.mpr hbit]
    · simp [hj]
  · intro hbit h
    have : (b &&& 2 ^ i).testBit i = false := by simp [h]
    rw [Nat.testBit_and, Nat.testBit_two_pow] at this
    simp [hbit] at this

/-- `Int.land` on two natural-number integers computes the `Nat` mask. -/
theorem intLand_ofNat (a b : Nat) :
    Int.land (a : Int) (b : Int) = ((a &&& b : Nat) : Int) := rfl

/-- Python's `byte & 2**i` test on a non-negative integer is the `i`-th bit
of the underlying natural number. -/
theorem intLand_two_pow_ne_zero (b : Int) (i : Nat) (hb : 0 ≤ b) :
    ((Int.land b (2 ^ i) != 0) = true) ↔ b.toNat.testBit i := by
  obtain ⟨m, rfl⟩ := Int.eq_ofNat_of_zero_le hb
  have h2 : (2 : Int) ^ i = ((2 ^ i : Nat) : Int) := by push_cast; rfl
  rw [h2, intLand_ofNat]
  simp only [Int.toNat_natCast, bne_iff_ne, ne_eq, Int.natCast_eq_zero]
  exact natLand_two_pow_ne_zero m i

/-- Masking a non-negative integer with `2^k - 1` is reduction mod `2^k`. -/
theorem intLand_two_pow_sub_one (b : Int) (k : Nat) (hb : 0 ≤ b) :
    Int.land b ((2 ^ k - 1 : Nat) : Int) = ((b.toNat % 2 ^ k : Nat) : Int) := by
  obtain ⟨m, rfl⟩ := Int.eq_ofNat_of_zero_le hb
  rw [intLand_ofNat]
  simp [Nat.and_pow_two_sub_one_eq_mod]

/-- `setSchedule` touches only `program_schedule`, on both its success and
its failure branch. -/
theorem setSchedule_preserves (s : ProgState) (t : String) (d0 d1 : PyVal) :
    (exVal (setSchedule s t d0 d1)).program_name = s.program_name ∧
    (exVal (setSchedule s t d0 d1)).program_enabled = s.program_enabled ∧
    (exVal (setSchedule s t d0 d1)).program_use_weather_adjustment
      = s.program_use_weather_adjustment ∧
    (exVal (setSchedule s t d0 d1)).program_restriction
      = s.program_restriction ∧
    (exVal (setSchedule s t d0 d1)).program_schedule_type
      = s.program_schedule_type ∧
    (exVal (setSchedule s t d0 d1)).program_start_time_type
      = s.program_start_time_type ∧
    (exVal (setSchedule s t d0 d1)).program_fixed_start_times
      = s.program_fixed_start_times ∧
    (exVal (setSchedule s t d0 d1)).program_repeating_start_times
      = s.program_repeating_start_times ∧
    (exVal (setSchedule s t d0 d1)).program_zone_durations
      = s.program_zone_durations := by
  unfold setSchedule setWeekdaySchedule setIntervalSchedule
  split
  · split <;> simp [exVal]
  · simp [exVal]

/-- `setStartTimes` touches only the two start-time lists, on both its
success and its failure branch. -/
theorem setStartTimes_preserves (s : ProgState) (t : String) (sT : PyVal) :
    (exVal (setStartTimes s t sT)).program_name = s.program_name ∧
    (exVal (setStartTimes s t sT)).program_enabled = s.program_enabled ∧
    (exVal (setStartTimes s t sT)).program_use_weather_adjustment
      = s.program_use_weather_adjustment ∧
    (exVal (setStartTimes s t sT)).program_restriction
      = s.program_restriction ∧
    (exVal (setStartTimes s t sT)).program_schedule_type
      = s.program_schedule_type ∧
    (exVal (setStartTimes s t sT)).program_start_time_type
      = s.program_start_time_type ∧
    (exVal (setStartTimes s t sT)).program_schedule = s.program_schedule ∧
    (exVal (setStartTimes s t sT)).program_zone_durations
      = s.program_zone_durations := by
  unfold setStartTimes setFixedStartTimes setRepeatingStartTimes
  split
  · simp [exVal]
  · split
    · split <;> simp [exVal]
    · simp [exVal]

/-- `programInitTail` never changes the six fields assigned by the flag
decoding of steps (1)-(6). -/
theorem programInitTail_preserves (s : ProgState) (d0 d1 sT du : PyVal) :
    (programInitTail s d0 d1 sT du).program_name = s.program_name ∧
    (programInitTail s d0 d1 sT du).program_enabled = s.program_enabled ∧
    (programInitTail s d0 d1 sT du).program_use_weather_adjustment
      = s.program_use_weather_adjustment ∧
    (programInitTail s d0 d1 sT du).program_restriction
      = s.program_restriction ∧
    (programInitTail s d0 d1 sT du).program_schedule_type
      = s.program_schedule_type ∧
    (programInitTail s d0 d1 sT du).program_start_time_type
      = s.program_start_time_type := by
  have p7 := setSchedule_preserves s s.program_schedule_type d0 d1
  unfold programInitTail
  split
  case _ s7 h7 =>
    rw [h7] at p7
    simp only [exVal] at p7
    exact ⟨p7.1, p7.2.1, p7.2.2.1, p7.2.2.2.1, p7.2.2.2.2.1, p7.2.2.2.2.2.1⟩
  case _ s7 h7 =>
    rw [h7] at p7
    simp only [exVal] at p7
    have p8 := setStartTimes_preserves s7 s7.program_start_time_type sT
    split
    case _ s8 h8 =>
      rw [h8] at p8
      simp only [exVal] at p8
      simp_all
    case _ s8 h8 =>
      rw [h8] at p8
      simp only [exVal] at p8
      unfold setDurations
      simp_all

/-- Python's `byte & 2**i` truthiness on a cast natural number is the `i`-th
bit of that number. -/
theorem intLand_pow_natCast (n i : Nat) :
    (Int.land (n : Int) (((2 ^ i : Nat) : Int)) != 0) = n.testBit i := by
  rw [intLand_ofNat]
  cases h : n.testBit i
  · have h0 : n &&& 2 ^ i = 0 := by
      by_contra hne
      have := (natLand_two_pow_ne_zero n i).mp hne
      simp [h] at this
    simp [h0]
  · have hne : n &&& 2 ^ i ≠ 0 := (natLand_two_pow_ne_zero n i).mpr (by simp [h])
    simp [hne]

/-- Bool-valued version of `intLand_two_pow_ne_zero`. -/
theorem intLand_two_pow_bool (b : Int) (i : Nat) (hb : 0 ≤ b) :
    (Int.land b (((2 ^ i : Nat) : Int)) != 0) = b.toNat.testBit i := by
  obtain ⟨m, rfl⟩ := Int.eq_ofNat_of_zero_le hb
  rw [intLand_pow_natCast]
  simp

/-- `programInit` on an integer flags value: the six assignments of steps
(1)-(6) collapse into one record, then `programInitTail` runs. -/
theorem programInit_int (pname : PyVal) (f : Int) (d0 d1 sT du : PyVal) :
    programInit pname (.int f) d0 d1 sT du = programInitTail
      { defaultProgState with
        program_name := pname
        program_enabled := Int.land f 1 != 0
        program_use_weather_adjustment := Int.land f 2 != 0
        program_restriction :=
          if Int.land f 4 != 0 then "Odd"
          else if Int.land f 8 != 0 then "Even" else "None"
        program_schedule_type :=
          if !(Int.land f 16 != 0 || Int.land f 32 != 0) then "Weekday"
          else "Interval"
        program_start_time_type :=
          if Int.land f 64 != 0 then "Fixed" else "Repeating" }
      d0 d1 sT du := rfl

/-- C5: for every integer flags value, program flag decoding yields
`enabled = bit0`, `useWeatherAdjustment = bit1`,
`restriction = Odd if bit2 else Even if bit3 else None`,
`scheduleType = Interval if bit4 or bit5 else Weekday`, and
`startTimeType = Fixed if bit6 else Repeating` — regardless of the remaining
constructor arguments (any later failure keeps these already-assigned
fields). -/
theorem program_flag_decoding (pname : PyVal) (n : Nat)
    (days0 days1 sTimes durs : PyVal) :
    (programInit pname (.int (n : Int)) days0 days1 sTimes durs).program_enabled
        = n.testBit 0 ∧
    (programInit pname (.int (n : Int)) days0 days1 sTimes
        durs).program_use_weather_adjustment = n.testBit 1 ∧
    (programInit pname (.int (n : Int)) days0 days1 sTimes
        durs).program_restriction
        = (if n.testBit 2 then "Odd" else if n.testBit 3 then "Even"
           else "None") ∧
    (programInit pname (.int (n : Int)) days0 days1 sTimes
        durs).program_schedule_type
        = (if n.testBit 4 || n.testBit 5 then "Interval" else "Weekday") ∧
    (programInit pname (.int (n : Int)) days0 days1 sTimes
        durs).program_start_time_type
        = (if n.testBit 6 then "Fixed" else "Repeating") := by
  rw [programInit_int]
  have hp := programInitTail_preserves
    { defaultProgState with
      program_name := pname
      program_enabled := Int.land (n : Int) 1 != 0
      program_use_weather_adjustment := Int.land (n : Int) 2 != 0
      program_restriction :=
        if Int.land (n : Int) 4 != 0 then "Odd"
        else if Int.land (n : Int) 8 != 0 then "Even" else "None"
      program_schedule_type :=
        if !(Int.land (n : Int) 16 != 0 || Int.land (n : Int) 32 != 0) then
          "Weekday"
        else "Interval"
      program_start_time_type :=
        if Int.land (n : Int) 64 != 0 then "Fixed" else "Repeating" }
    days0 days1 sTimes durs
  obtain ⟨-, h1, h2, h3, h4, h5⟩ := hp
  rw [h1, h2, h3, h4, h5]
  have e0 : (1 : Int) = ((2 ^ 0 : Nat) : Int) := by norm_num
  have e1 : (2 : Int) = ((2 ^ 1 : Nat) : Int) := by norm_num
  have e2 : (4 : Int) = ((2 ^ 2 : Nat) : Int) := by norm_num
  have e3 : (8 : Int) = ((2 ^ 3 : Nat) : Int) := by norm_num
  have e4 : (16 : Int) = ((2 ^ 4 : Nat) : Int) := by norm_num
  have e5 : (32 : Int) = ((2 ^ 5 : Nat) : Int) := by norm_num
  have e6 : (64 : Int) = ((2 ^ 6 : Nat) : Int) := by norm_num
  simp only [e0, e1, e2, e3, e4, e5, e6, intLand_pow_natCast]
  refine ⟨trivial, trivial, trivial, ?_, trivial⟩
  cases h : (n.testBit 4 || n.testBit 5) <;> simp [h]

/-- `setSchedule` with integer day arguments always succeeds and leaves the
start-time fields and durations unchanged. -/
theorem setSchedule_int_ok (s : ProgState) (t : String) (a b : Int) :
    ∃ s7, setSchedule s t (.int a) (.int b) = .ok s7 ∧
      s7.program_start_time_type = s.program_start_time_type ∧
      s7.program_fixed_start_times = s.program_fixed_start_times ∧
      s7.program_repeating_start_times = s.program_repeating_start_times ∧
      s7.program_zone_durations = s.program_zone_durations := by
  unfold setSchedule setWeekdaySchedule setIntervalSchedule
  split
  · exact ⟨_, rfl, rfl, rfl, rfl, rfl⟩
  · exact ⟨_, rfl, rfl, rfl, rfl, rfl⟩

/-- After a successful `setSchedule`, the rest of the constructor never
touches `program_schedule`. -/
theorem programInitTail_schedule_of_ok (s s7 : ProgState) (d0 d1 sT du : PyVal)
    (h7 : setSchedule s s.program_schedule_type d0 d1 = .ok s7) :
    (programInitTail s d0 d1 sT du).program_schedule = s7.program_schedule := by
  unfold programInitTail
  simp only [h7]
  have p := setStartTimes_preserves s7 s7.program_start_time_type sT
  split
  case _ x h => rw [h] at p; simp only [exVal] at p; exact p.2.2.2.2.2.2.1
  case _ x h =>
    rw [h] at p; simp only [exVal] at p
    unfold setDurations
    exact p.2.2.2.2.2.2.1

/-- A program whose decoded schedule type is `Interval` gets the single
schedule entry `{'interval': days0, 'delay': days1}` — the double argument
swap between `setSchedule` and `setIntervalSchedule` cancels the intended
order. -/
theorem programInitTail_interval (s : ProgState) (d0 d1 sT du : PyVal)
    (hst : s.program_schedule_type = "Interval") :
    (programInitTail s d0 d1 sT du).program_schedule = [.interval d0 d1] := by
  have h7 : setSchedule s s.program_schedule_type d0 d1
      = .ok (setIntervalSchedule s d1 d0) := by
    unfold setSchedule
    rw [hst]
    simp
  rw [programInitTail_schedule_of_ok s _ d0 d1 sT du h7]
  rfl

/-- C2 (amended): with bit4 or bit5 set the schedule decodes to
`{interval: days0, delay: days1}` — the source's double swap yields
`interval = days0`, not `days1`. -/
theorem interval_schedule_decoding (pname : PyVal) (f : Int)
    (d0 d1 sT du : PyVal)
    (hint : Int.land f 16 ≠ 0 ∨ Int.land f 32 ≠ 0) :
    (programInit pname (.int f) d0 d1 sT du).program_schedule
      = [.interval d0 d1] := by
  rw [programInit_int]
  apply programInitTail_interval
  rcases hint with h | h <;> simp [h]

/-- Witness for `interval_schedule_decoding` at flags 17 (bit0+bit4),
`days0 = 5`, `days1 = 3`. -/
theorem interval_schedule_decoding_witness :
    ((Int.land 17 16 ≠ 0 ∨ Int.land 17 32 ≠ 0) ∧
      (programInit (.str "p") (.int 17) (.int 5) (.int 3) (.list [])
          (.list [])).program_schedule
        = [.interval (.int 5) (.int 3)]) :=
  ⟨Or.inl (by decide),
   interval_schedule_decoding (.str "p") 17 (.int 5) (.int 3) (.list [])
     (.list []) (Or.inl (by decide))⟩

/-- C2 (counterexample): at flags 17, `days0 = 5`, `days1 = 3` the decoded
schedule is `{interval: 5, delay: 3}`, not the claimed
`{interval: 3, delay: 5}`. -/
theorem interval_schedule_claim_false :
    (programInit (.str "p") (.int 17) (.int 5) (.int 3) (.list [])
        (.list [])).program_schedule = [.interval (.int 5) (.int 3)] ∧
    [ScheduleElem.interval (.int 5) (.int 3)]
      ≠ [ScheduleElem.interval (.int 3) (.int 5)] := by
  refine ⟨rfl, ?_⟩
  intro h
  simp at h

/-- On a state whose decoded start-time type is `Fixed` (and whose
start-time lists and durations are still at their defaults, as after steps
(1)-(6)), the rest of the constructor leaves both start-time lists empty and
never reaches `setDurations`: `setFixedStartTimes` always raises `NameError`
on its misspelled loop variable. -/
theorem programInitTail_fixed (s : ProgState) (d0 d1 sT du : PyVal)
    (hst : s.program_start_time_type = "Fixed")
    (hfx : s.program_fixed_start_times = [])
    (hrp : s.program_repeating_start_times = [])
    (hdu : s.program_zone_durations = .list []) :
    (programInitTail s d0 d1 sT du).program_fixed_start_times = [] ∧
    (programInitTail s d0 d1 sT du).program_repeating_start_times = [] ∧
    (programInitTail s d0 d1 sT du).program_zone_durations = .list [] := by
  have p7 := setSchedule_preserves s s.program_schedule_type d0 d1
  unfold programInitTail
  split
  case _ s7 h7 =>
    rw [h7] at p7
    simp only [exVal] at p7
    exact ⟨p7.2.2.2.2.2.2.1.trans hfx, p7.2.2.2.2.2.2.2.1.trans hrp,
      p7.2.2.2.2.2.2.2.2.trans hdu⟩
  case _ s7 h7 =>
    rw [h7] at p7
    simp only [exVal] at p7
    have hst7 : s7.program_start_time_type = "Fixed" :=
      p7.2.2.2.2.2.1.trans hst
    have hrun : setStartTimes s7 s7.program_start_time_type sT
        = .error { s7 with program_fixed_start_times := [],
                           program_repeating_start_times := [] } := by
      unfold setStartTimes setFixedStartTimes
      rw [hst7]
      simp
    simp only [hrun]
    exact ⟨trivial, trivial, p7.2.2.2.2.2.2.2.2.trans hdu⟩

/-- C9 is false on the code: for every program tuple whose flags have bit6
set (`startTimeType = Fixed`), the misspelled loop variable in
`setFixedStartTimes` raises `NameError` after both start-time lists were
cleared, so no fixed start time is ever stored and `setDurations` never
runs — `program_zone_durations` stays at its empty default instead of the
given durations. -/
theorem fixed_start_times_lost (pname : PyVal) (f : Int) (d0 d1 sT du : PyVal)
    (hfix : Int.land f 64 ≠ 0) :
    (programInit pname (.int f) d0 d1 sT du).program_fixed_start_times = [] ∧
    (programInit pname (.int f) d0 d1 sT
        du).program_repeating_start_times = [] ∧
    (programInit pname (.int f) d0 d1 sT du).program_zone_durations
      = .list [] := by
  rw [programInit_int]
  apply programInitTail_fixed <;> simp [hfix, defaultProgState]

/-- Witness for `fixed_start_times_lost`: the tuple
`(name='P1', flags=65, days0=0, days1=0, startTimes=[600], durations=[300])`
decodes with an empty fixed start-time list and the default (empty)
durations, although the claim expects `[600]` and `[300]`. -/
theorem fixed_start_times_lost_witness :
    (Int.land 65 64 ≠ 0) ∧
    ((programInit (.str "P1") (.int 65) (.int 0) (.int 0)
        (.list [.int 600]) (.list [.int 300])).program_fixed_start_times = []
      ∧ (programInit (.str "P1") (.int 65) (.int 0) (.int 0)
          (.list [.int 600])
          (.list [.int 300])).program_repeating_start_times = []
      ∧ (programInit (.str "P1") (.int 65) (.int 0) (.int 0)
          (.list [.int 600]) (.list [.int 300])).program_zone_durations
        = .list []) :=
  ⟨by decide,
   fixed_start_times_lost (.str "P1") 65 (.int 0) (.int 0)
     (.list [.int 600]) (.list [.int 300]) (by decide)⟩

/-- On non-negative raw values the source's mask arithmetic agrees with the
spec's bit description. -/
theorem decodeRepeating_eq_spec (t : Int) (ht : 0 ≤ t) :
    decodeRepeating t = specRepeatingStartTime t := by
  unfold decodeRepeating specRepeatingStartTime
  have e13 : (0x2000 : Int) = ((2 ^ 13 : Nat) : Int) := by norm_num
  have e12 : (0x1000 : Int) = ((2 ^ 12 : Nat) : Int) := by norm_num
  have e11 : (0x800 : Int) = ((2 ^ 11 : Nat) : Int) := by norm_num
  have e7ff : (0x7ff : Int) = ((2 ^ 11 - 1 : Nat) : Int) := by norm_num
  rw [e13, e12, e11, e7ff, intLand_two_pow_bool t 13 ht,
    intLand_two_pow_bool t 12 ht, intLand_two_pow_bool t 11 ht,
    intLand_two_pow_sub_one t 11 ht]

/-- Evaluating the repeating start-time loop on a list of integer entries:
every entry `> 0` is decoded and appended in order, every other entry is
skipped, and the loop never raises. -/
theorem repeatingLoop_ints (ts : List Int) : ∀ acc : List RepStartTime,
    repeatingLoop acc (ts.map .int)
      = .ok (acc ++ ts.filterMap fun t =>
          if 0 < t then some (decodeRepeating t) else none) := by
  induction ts with
  | nil => intro acc; simp [repeatingLoop]
  | cons t rest ih =>
    intro acc
    by_cases h : 0 < t
    · simp only [List.map_cons, repeatingLoop, if_pos h, ih,
        List.filterMap_cons, h, ite_true, List.append_assoc,
        List.singleton_append]
    · simp only [List.map_cons, repeatingLoop, if_neg h, ih,
        List.filterMap_cons, h, ite_false]

/-- On a state whose decoded start-time type is `Repeating`, with integer
day arguments and a list of integer raw start times, the constructor
completes and stores exactly the decoded entries for the raw values `> 0`. -/
theorem programInitTail_repeating (s : ProgState) (d0 d1 : Int)
    (ts : List Int) (du : PyVal)
    (hst : s.program_start_time_type = "Repeating") :
    (programInitTail s (.int d0) (.int d1) (.list (ts.map .int))
        du).program_repeating_start_times
      = ts.filterMap (fun t =>
          if 0 < t then some (decodeRepeating t) else none) ∧
    (programInitTail s (.int d0) (.int d1) (.list (ts.map .int))
        du).program_fixed_start_times = [] := by
  obtain ⟨s7, h7, hstt, hfx, hrp, hdu⟩ :=
    setSchedule_int_ok s s.program_schedule_type d0 d1
  unfold programInitTail
  simp only [h7]
  have hstt7 : s7.program_start_time_type = "Repeating" := hstt.trans hst
  have hrun : setStartTimes s7 s7.program_start_time_type
      (.list (ts.map .int))
      = .ok { s7 with
              program_fixed_start_times := [],
              program_repeating_start_times := ts.filterMap fun t =>
                if 0 < t then some (decodeRepeating t) else none } := by
    unfold setStartTimes setRepeatingStartTimes
    rw [hstt7]
    simp only [repeatingLoop_ints ts [], List.nil_append]
    simp
  simp only [hrun]
  exact ⟨rfl, rfl⟩

/-- C4: for a program with `startTimeType = Repeating` (bit6 clear) and
integer day fields, every non-zero (non-negative) raw start time `t`
decodes to basis `Sunset`/`Sunrise`/`Midnight` by bits 13/12, sign by bit
11 and offset by the low 11 bits, and zero entries are omitted entirely. -/
theorem repeating_start_time_decoding (pname : PyVal) (f d0 d1 : Int)
    (du : PyVal) (ts : List Int)
    (hrep : Int.land f 64 = 0) (hnn : ∀ t ∈ ts, 0 ≤ t) :
    (programInit pname (.int f) (.int d0) (.int d1) (.list (ts.map .int))
        du).program_repeating_start_times
      = ts.filterMap (fun t =>
          if t ≠ 0 then some (specRepeatingStartTime t) else none) ∧
    (programInit pname (.int f) (.int d0) (.int d1) (.list (ts.map .int))
        du).program_fixed_start_times = [] := by
  rw [programInit_int]
  have h := programInitTail_repeating
    { defaultProgState with
      program_name := pname
      program_enabled := Int.land f 1 != 0
      program_use_weather_adjustment := Int.land f 2 != 0
      program_restriction :=
        if Int.land f 4 != 0 then "Odd"
        else if Int.land f 8 != 0 then "Even" else "None"
      program_schedule_type :=
        if !(Int.land f 16 != 0 || Int.land f 32 != 0) then "Weekday"
        else "Interval"
      program_start_time_type :=
        if Int.land f 64 != 0 then "Fixed" else "Repeating" }
    d0 d1 ts du (by simp [hrep])
  refine ⟨h.1.trans ?_, h.2⟩
  apply List.filterMap_congr
  intro t htmem
  have ht := hnn t htmem
  by_cases h0 : t = 0
  · subst h0
    simp
  · have hpos : 0 < t := lt_of_le_of_ne ht (Ne.symm h0)
    simp [hpos, h0, decodeRepeating_eq_spec t ht]

/-- Witness for `repeating_start_time_decoding` at the spec's example: raw
start times `[0x2000 + 0x800 + 30, 0]` decode to the single entry
`{basis: Sunset, sign: plus, offset: 30}`, the zero entry being dropped. -/
theorem repeating_start_time_decoding_witness :
    (Int.land 1 64 = 0 ∧ ∀ t ∈ ([10270, 0] : List Int), 0 ≤ t) ∧
    (programInit (.str "p") (.int 1) (.int 0) (.int 0)
        (.list ([(10270 : Int), 0].map .int))
        (.list [])).program_repeating_start_times
      = [⟨"Sunset", "plus", 30⟩] := by
  refine ⟨⟨by decide, by decide⟩, ?_⟩
  have h := repeating_start_time_decoding (.str "p") 1 0 0 (.list [])
    [10270, 0] (by decide) (by decide)
  rw [h.1]
  rfl

/-- Resolution never changes an entry's name. -/
theorem resolveProp_name (d : Snapshot) (p : PropDef) :
    (resolveProp d p).name = p.name := by
  unfold resolveProp
  split
  · split
    · rfl
    · split <;> rfl
  · rfl

/-- Resolution preserves the listing of names. -/
theorem resolved_names (d : Snapshot) :
    (resolvedProperties d).map PropDef.name
      = controller_properties.map PropDef.name := by
  unfold resolvedProperties
  rw [List.map_map]
  exact List.map_congr_left (fun p _ => resolveProp_name d p)

/-- Every branch of the constructor leaves `controller_properties` as the
resolved registry. -/
theorem controllerInit_properties (ss : List Station) (sp : List ProgState)
    (d : Snapshot) :
    (controllerInit ss sp d).controller_properties = resolvedProperties d := by
  unfold controllerInit
  repeat first | rfl | split | dsimp only

/-- `getProperty` on the resolved registry raises for every name other than
`device_time`, the first entry: the misplaced `else: raise` fires on the
first loop iteration. -/
theorem getProperty_resolved_raises (d : Snapshot) (nm : String)
    (hnm : nm ≠ "device_time") :
    getProperty (resolvedProperties d) nm = .error nm := by
  unfold resolvedProperties controller_properties
  simp only [List.map_cons]
  unfold getProperty
  dsimp only
  rw [resolveProp_name]
  exact if_neg fun h => hnm h.symm

/-- In particular the constructor's own `getProperty('num_programs')` call
at source line 152 always raises. -/
theorem getProperty_num_programs (d : Snapshot) :
    getProperty (resolvedProperties d) "num_programs"
      = .error "num_programs" :=
  getProperty_resolved_raises d "num_programs" (by decide)

/-- The program list of a constructed controller is always exactly the
shared class-level list that existed before construction: the `try` block
dies at `getProperty('num_programs')` (or earlier) on every input, so the
program loop never runs. -/
theorem programs_never_parsed (d : Snapshot) (ss : List Station)
    (sp : List ProgState) :
    (controllerInit ss sp d).controller_programs = sp := by
  unfold controllerInit
  dsimp only
  split
  · rfl
  next env =>
    split
    next ir seqB dis spe =>
      split
      next nst =>
        try dsimp only
        split
        · rfl
        next sts hok =>
          split
          · rfl
          next npv hget =>
            have h2 : getProperty (resolvedProperties d) "num_programs"
                = .ok npv := hget
            rw [getProperty_num_programs] at h2
            exact absurd h2 (by simp)
      · rfl
    · rfl

/-- C1 is false on the code: `num_stations` is a registered property name on
every constructed controller, yet `getProperty('num_stations')` raises
instead of returning its value — the `else: raise` inside the loop fires on
the very first registry entry (`device_time`), so every name except
`device_time` raises even though it is present. -/
theorem getProperty_registered_name_raises (d : Snapshot) (ss : List Station)
    (sp : List ProgState) :
    "num_stations"
        ∈ (controllerInit ss sp d).controller_properties.map PropDef.name ∧
    getProperty (controllerInit ss sp d).controller_properties "num_stations"
      = .error "num_stations" := by
  rw [controllerInit_properties, resolved_names]
  exact ⟨by decide, getProperty_resolved_raises d "num_stations" (by decide)⟩

/-- C7: property resolution is total and per-entry: a non-derived entry
whose section and key are present takes the raw snapshot value unchanged; a
non-derived entry whose section or key is absent keeps its declared
default; a derived entry is left completely untouched.  The resolved entry
is what the constructed controller carries. -/
theorem registry_resolution_contract (d : Snapshot) (ss : List Station)
    (sp : List ProgState) (p : PropDef) (hp : p ∈ controller_properties) :
    resolveProp d p ∈ (controllerInit ss sp d).controller_properties ∧
    (p.source ≠ "derived" → ∀ v, sectGet d p.source p.abbr = Option.some v →
      (resolveProp d p).val = v) ∧
    (p.source ≠ "derived" → sectGet d p.source p.abbr = Option.none →
      (resolveProp d p).val = p.val) ∧
    (p.source = "derived" → resolveProp d p = p) := by
  refine ⟨?_, ?_, ?_, ?_⟩
  · rw [controllerInit_properties]
    exact List.mem_map_of_mem _ hp
  · intro hnd v hv
    unfold sectGet at hv
    unfold resolveProp
    rw [if_pos hnd]
    cases hsec : lookupKey d p.source with
    | none => rw [hsec] at hv; cases hv
    | some sec =>
      rw [hsec] at hv
      dsimp only at hv ⊢
      rw [hv]
  · intro hnd hv
    unfold sectGet at hv
    unfold resolveProp
    rw [if_pos hnd]
    cases hsec : lookupKey d p.source with
    | none => rfl
    | some sec =>
      rw [hsec] at hv
      dsimp only at hv ⊢
      rw [hv]
  · intro hd
    unfold resolveProp
    rw [hd]
    simp

/-- Witness for `registry_resolution_contract`: resolving the
`firmware_version` entry against a snapshot with `options.fwv = 219` yields
exactly `219`. -/
theorem registry_resolution_contract_witness :
    ((⟨"firmware_version", "options", "fwv", "", .int 0⟩ : PropDef).source
        ≠ "derived" ∧
      sectGet [("options", [("fwv", .int 219)])] "options" "fwv"
        = Option.some (.int 219)) ∧
    (resolveProp [("options", [("fwv", .int 219)])]
        ⟨"firmware_version", "options", "fwv", "", .int 0⟩).val = .int 219 :=
  ⟨⟨by decide, rfl⟩,
   (registry_resolution_contract [("options", [("fwv", .int 219)])] [] [] _
     (by repeat first
           | exact List.mem_cons_self _ _
           | apply List.mem_cons_of_mem)).2.1
     (by decide) (.int 219) rfl⟩

/-- C10: `setProperty` with a name absent from the registry is a silent
no-op — the loop finds no match, raises nothing and leaves every entry
unchanged. -/
theorem setProperty_unknown_silent (d : Snapshot) (ss : List Station)
    (sp : List ProgState) (nm : String) (v : PyVal)
    (hnm : nm ∉ controller_properties.map PropDef.name) :
    setProperty (controllerInit ss sp d).controller_properties nm v
      = (controllerInit ss sp d).controller_properties := by
  rw [controllerInit_properties]
  unfold setProperty
  have h : ∀ p ∈ resolvedProperties d,
      (if p.name = nm then { p with val := v } else p) = id p := by
    intro p hp
    rw [if_neg]
    · rfl
    intro he
    apply hnm
    rw [← he]
    have hm : p.name ∈ (resolvedProperties d).map PropDef.name :=
      List.mem_map_of_mem _ hp
    rw [resolved_names] at hm
    exact hm
  rw [List.map_congr_left h, List.map_id]

/-- Witness for `setProperty_unknown_silent`: writing to the unknown name
`bogus` leaves the freshly resolved registry intact. -/
theorem setProperty_unknown_silent_witness :
    ("bogus" ∉ controller_properties.map PropDef.name) ∧
    setProperty (controllerInit [] [] []).controller_properties "bogus"
        (.int 7)
      = (controllerInit [] [] []).controller_properties :=
  ⟨by decide, setProperty_unknown_silent [] [] [] "bogus" (.int 7) (by decide)⟩

/-- When the arrays cover all requested indices and the four bytes are
integers, the station loop completes and appends exactly the decoded
station records in index order. -/
theorem stationLoop_ok (d : Snapshot) (ns ss : List PyVal)
    (irv seqv disv spev : Int)
    (hns : sectGet d "stations" "snames" = Option.some (.list ns))
    (hss : sectGet d "status" "sn" = Option.some (.list ss)) :
    ∀ (k idx : Nat) (acc : List Station),
      idx + k ≤ ns.length → idx + k ≤ ss.length →
      stationLoop d (.int irv) (.int seqv) (.int disv) (.int spev) k idx acc
        = .ok (acc ++ (List.range k).map (fun j =>
            builtStation ns ss irv seqv disv spev (idx + j))) := by
  intro k
  induction k with
  | zero => intro idx acc _ _; simp [stationLoop]
  | succ k ih =>
    intro idx acc h1 h2
    have hn : idx < ns.length := by omega
    have hs : idx < ss.length := by omega
    obtain ⟨nm, hnm⟩ : ∃ nm, ns.get? idx = Option.some nm := by
      rw [List.get?_eq_get hn]; exact ⟨_, rfl⟩
    obtain ⟨st, hst⟩ : ∃ st, ss.get? idx = Option.some st := by
      rw [List.get?_eq_get hs]; exact ⟨_, rfl⟩
    unfold stationLoop
    rw [hns, hss]
    dsimp only
    rw [hnm, hst]
    dsimp only
    rw [ih (idx + 1) _ (by omega) (by omega)]
    congr 1
    rw [List.range_succ_eq_map, List.map_cons, List.map_map]
    simp only [List.append_assoc, List.singleton_append]
    congr 1
    simp only [List.cons.injEq]
    refine ⟨?_, ?_⟩
    · simp only [Nat.add_zero]
      unfold builtStation
      rw [hnm, hst]
      rfl
    · apply List.map_congr_left
      intro j hj
      simp only [Function.comp]
      have hjj : idx + 1 + j = idx + (j + 1) := by omega
      rw [hjj]

/-- When `snames` is shorter than the requested count (and `sn` covers at
least the readable prefix), the loop raises `IndexError` at
`idx = ns.length`, leaving exactly the stations decoded before that
point. -/
theorem stationLoop_err (d : Snapshot) (ns ss : List PyVal)
    (irv seqv disv spev : Int)
    (hns : sectGet d "stations" "snames" = Option.some (.list ns))
    (hss : sectGet d "status" "sn" = Option.some (.list ss)) :
    ∀ (k idx : Nat) (acc : List Station),
      idx ≤ ns.length → ns.length < idx + k → ns.length ≤ ss.length →
      stationLoop d (.int irv) (.int seqv) (.int disv) (.int spev) k idx acc
        = .error (acc ++ (List.range (ns.length - idx)).map (fun j =>
            builtStation ns ss irv seqv disv spev (idx + j))) := by
  intro k
  induction k with
  | zero => intro idx acc h1 h2 _; omega
  | succ k ih =>
    intro idx acc h1 h2 h3
    by_cases hn : idx < ns.length
    · have hs : idx < ss.length := by omega
      obtain ⟨nm, hnm⟩ : ∃ nm, ns.get? idx = Option.some nm := by
        rw [List.get?_eq_get hn]; exact ⟨_, rfl⟩
      obtain ⟨st, hst⟩ : ∃ st, ss.get? idx = Option.some st := by
        rw [List.get?_eq_get hs]; exact ⟨_, rfl⟩
      unfold stationLoop
      rw [hns, hss]
      dsimp only
      rw [hnm, hst]
      dsimp only
      rw [ih (idx + 1) _ (by omega) (by omega) h3]
      congr 1
      have hrange : ns.length - idx = (ns.length - (idx + 1)) + 1 := by omega
      rw [hrange, List.range_succ_eq_map, List.map_cons, List.map_map]
      simp only [List.append_assoc, List.singleton_append]
      congr 1
      simp only [List.cons.injEq]
      refine ⟨?_, ?_⟩
      · simp only [Nat.add_zero]
        unfold builtStation
        rw [hnm, hst]
        rfl
      · apply List.map_congr_left
        intro j hj
        simp only [Function.comp]
        have hjj : idx + 1 + j = idx + (j + 1) := by omega
        rw [hjj]
    · have hidx : idx = ns.length := by omega
      have hnone : ns.get? idx = Option.none := by
        rw [List.get?_eq_none]
        omega
      unfold stationLoop
      rw [hns, hss]
      dsimp only
      rw [hnone]
      cases hx : ss.get? idx <;>
        · dsimp only
          rw [hidx]
          simp

/-- When the flag bytes are integers and both arrays cover `nstations`
indices, the constructor's station phase succeeds and the shared station
list is extended by exactly the decoded records in index order. -/
theorem controllerInit_stations_ok (d : Snapshot) (ss0 : List Station)
    (sp0 : List ProgState) (env : PyVal) (irv seqv disv spev nst : Int)
    (ns ssn : List PyVal)
    (hen : sectGet d "settings" "en" = Option.some env)
    (hir : pyIndex0 (sectGet d "stations" "ignore_rain")
      = Option.some (.int irv))
    (hsq : pyIndex0 (sectGet d "stations" "stn_seq")
      = Option.some (.int seqv))
    (hdi : pyIndex0 (sectGet d "stations" "stn_dis")
      = Option.some (.int disv))
    (hsp : pyIndex0 (sectGet d "stations" "stn_spe")
      = Option.some (.int spev))
    (hnst : sectGet d "status" "nstations" = Option.some (.int nst))
    (hns : sectGet d "stations" "snames" = Option.some (.list ns))
    (hssn : sectGet d "status" "sn" = Option.some (.list ssn))
    (hlen1 : nst.toNat ≤ ns.length) (hlen2 : nst.toNat ≤ ssn.length) :
    (controllerInit ss0 sp0 d).controller_stations
      = ss0 ++ (List.range nst.toNat).map
          (fun j => builtStation ns ssn irv seqv disv spev j) := by
  unfold controllerInit
  dsimp only
  rw [hen]
  dsimp only
  rw [hir, hsq, hdi, hsp]
  dsimp only
  rw [hnst]
  dsimp only
  rw [stationLoop_ok d ns ssn irv seqv disv spev hns hssn nst.toNat 0 ss0
    (by omega) (by omega)]
  dsimp only
  rw [getProperty_num_programs]
  dsimp only
  simp only [Nat.zero_add]

/-- C6: on a valid snapshot with at most 8 stations, station `i` carries
`ignoreRain/sequential/disabled/special` flags whose truthiness is exactly
bit `i` of the single respective flag byte. -/
theorem station_flag_decoding (d : Snapshot) (env : PyVal)
    (irv seqv disv spev nst : Int) (ns ssn : List PyVal)
    (hen : sectGet d "settings" "en" = Option.some env)
    (hir : pyIndex0 (sectGet d "stations" "ignore_rain")
      = Option.some (.int irv))
    (hsq : pyIndex0 (sectGet d "stations" "stn_seq")
      = Option.some (.int seqv))
    (hdi : pyIndex0 (sectGet d "stations" "stn_dis")
      = Option.some (.int disv))
    (hsp : pyIndex0 (sectGet d "stations" "stn_spe")
      = Option.some (.int spev))
    (hnst : sectGet d "status" "nstations" = Option.some (.int nst))
    (hns : sectGet d "stations" "snames" = Option.some (.list ns))
    (hssn : sectGet d "status" "sn" = Option.some (.list ssn))
    (hlen1 : nst.toNat ≤ ns.length) (hlen2 : nst.toNat ≤ ssn.length)
    (_h8 : nst.toNat ≤ 8)
    (hnn1 : 0 ≤ irv) (hnn2 : 0 ≤ seqv) (hnn3 : 0 ≤ disv) (hnn4 : 0 ≤ spev) :
    ∀ i, i < nst.toNat →
      (controllerInit [] [] d).controller_stations.get? i
        = Option.some (builtStation ns ssn irv seqv disv spev i) ∧
      ((builtStation ns ssn irv seqv disv spev i).ignore_rain_flag != 0)
        = irv.toNat.testBit i ∧
      ((builtStation ns ssn irv seqv disv spev i).is_sequential_flag != 0)
        = seqv.toNat.testBit i ∧
      ((builtStation ns ssn irv seqv disv spev i).is_disabled_flag != 0)
        = disv.toNat.testBit i ∧
      ((builtStation ns ssn irv seqv disv spev i).is_special_flag != 0)
        = spev.toNat.testBit i := by
  intro i hi
  have h2 : (2 : Int) ^ i = ((2 ^ i : Nat) : Int) := by push_cast; rfl
  refine ⟨?_, ?_, ?_, ?_, ?_⟩
  · rw [controllerInit_stations_ok d [] [] env irv seqv disv spev nst ns ssn
      hen hir hsq hdi hsp hnst hns hssn hlen1 hlen2]
    rw [List.nil_append, List.get?_map, List.get?_range hi]
    rfl
  · unfold builtStation
    dsimp only
    rw [h2, intLand_two_pow_bool irv i hnn1]
  · unfold builtStation
    dsimp only
    rw [h2, intLand_two_pow_bool seqv i hnn2]
  · unfold builtStation
    dsimp only
    rw [h2, intLand_two_pow_bool disv i hnn3]
  · unfold builtStation
    dsimp only
    rw [h2, intLand_two_pow_bool spev i hnn4]

/-- Witness for `station_flag_decoding`: on `c6Snap`, station 2's
`ignore_rain_flag` is truthy (bit 2 of `0b101`). -/
theorem station_flag_decoding_witness :
    (sectGet c6Snap "status" "nstations" = Option.some (.int 3) ∧
      (2 : Nat) < (3 : Int).toNat) ∧
    ((controllerInit [] [] c6Snap).controller_stations.get? 2
        = Option.some (builtStation [.str "a", .str "b", .str "c"]
            [.int 0, .int 0, .int 0] 5 0 0 0 2) ∧
      ((builtStation [.str "a", .str "b", .str "c"]
          [.int 0, .int 0, .int 0] 5 0 0 0 2).ignore_rain_flag != 0)
        = (5 : Int).toNat.testBit 2) :=
  ⟨⟨rfl, by decide⟩, by
    have h := station_flag_decoding c6Snap (.int 1) 5 0 0 0 3
      [.str "a", .str "b", .str "c"] [.int 0, .int 0, .int 0]
      rfl rfl rfl rfl rfl rfl rfl rfl (by decide) (by decide) (by decide)
      (by decide) (by decide) (by decide) (by decide) 2 (by decide)
    exact ⟨h.1, h.2.1⟩⟩

/-- C3 (amended): when `status.nstations` exceeds the length of `snames`,
assembly does NOT fail — the `IndexError` raised inside the station loop is
swallowed by the constructor's bare `except`, and a Controller is returned,
populated with exactly the stations decoded before the failure (and with
the untouched shared program list); nothing is surfaced to the caller. -/
theorem structural_mismatch_swallowed (d : Snapshot) (ss0 : List Station)
    (sp0 : List ProgState) (env : PyVal) (irv seqv disv spev nst : Int)
    (ns ssn : List PyVal)
    (hen : sectGet d "settings" "en" = Option.some env)
    (hir : pyIndex0 (sectGet d "stations" "ignore_rain")
      = Option.some (.int irv))
    (hsq : pyIndex0 (sectGet d "stations" "stn_seq")
      = Option.some (.int seqv))
    (hdi : pyIndex0 (sectGet d "stations" "stn_dis")
      = Option.some (.int disv))
    (hsp : pyIndex0 (sectGet d "stations" "stn_spe")
      = Option.some (.int spev))
    (hnst : sectGet d "status" "nstations" = Option.some (.int nst))
    (hns : sectGet d "stations" "snames" = Option.some (.list ns))
    (hssn : sectGet d "status" "sn" = Option.some (.list ssn))
    (hshort : ns.length < nst.toNat) (hcover : ns.length ≤ ssn.length) :
    (controllerInit ss0 sp0 d).controller_stations
      = ss0 ++ (List.range ns.length).map
          (fun j => builtStation ns ssn irv seqv disv spev j) ∧
    (controllerInit ss0 sp0 d).controller_programs = sp0 := by
  refine ⟨?_, programs_never_parsed d ss0 sp0⟩
  unfold controllerInit
  dsimp only
  rw [hen]
  dsimp only
  rw [hir, hsq, hdi, hsp]
  dsimp only
  rw [hnst]
  dsimp only
  rw [stationLoop_err d ns ssn irv seqv disv spev hns hssn nst.toNat 0 ss0
    (by omega) (by omega) hcover]
  dsimp only
  simp only [Nat.zero_add, Nat.sub_zero]

/-- C3 (counterexample): on `c3Snap` (`nstations = 2`, one station name)
the constructor returns normally — no error is surfaced — and the returned
Controller is partially populated: it holds 1 station, not the declared
2.  This contradicts the claim that assembly fails and no Controller is
produced. -/
theorem partial_controller_on_mismatch :
    sectGet c3Snap "status" "nstations" = Option.some (.int 2) ∧
    sectGet c3Snap "stations" "snames"
      = Option.some (.list [.str "a"]) ∧
    (controllerInit [] [] c3Snap).controller_stations.length = 1 ∧
    (controllerInit [] [] c3Snap).controller_stations.length ≠ 2 :=
  ⟨rfl, rfl, rfl, by decide⟩

/-- Witness for `structural_mismatch_swallowed` on `c3Snap`. -/
theorem structural_mismatch_swallowed_witness :
    (((1 : Nat) < (2 : Int).toNat) ∧ ((1 : Nat) ≤ 2)) ∧
    ((controllerInit [] [] c3Snap).controller_stations
        = [] ++ (List.range 1).map (fun j =>
            builtStation [.str "a"] [.int 0, .int 0] 5 0 0 0 j) ∧
      (controllerInit [] [] c3Snap).controller_programs = []) :=
  ⟨⟨by decide, by decide⟩,
   structural_mismatch_swallowed c3Snap [] [] (.int 1) 5 0 0 0 2
     [.str "a"] [.int 0, .int 0] rfl rfl rfl rfl rfl rfl rfl rfl
     (by decide) (by decide)⟩

/-- C8 is false on the code, in two ways.  (1) The program list of every
constructed controller is exactly the pre-existing shared class list: the
construction calls `getProperty('num_programs')`, which always raises, so
the program loop never runs — on `goodSnap`, `num_programs` resolves to 1
but 0 programs are decoded.  (2) `controller_stations` is a class
attribute shared across instances: constructing a second controller from
the same snapshot leaves it with 2 stations although `num_stations` is 1. -/
theorem controller_list_lengths :
    (∀ (d : Snapshot) (ss : List Station) (sp : List ProgState),
        (controllerInit ss sp d).controller_programs = sp) ∧
    (controllerInit [] [] goodSnap).controller_stations.length = 1 ∧
    (controllerInit [] [] goodSnap).controller_programs.length = 0 ∧
    ((controllerInit [] [] goodSnap).controller_properties.find?
        (fun p => p.name == "num_programs")).map PropDef.val
      = Option.some (.int 1) ∧
    (controllerInit (controllerInit [] [] goodSnap).controller_stations
        (controllerInit [] [] goodSnap).controller_programs
        goodSnap).controller_stations.length = 2 :=
  ⟨fun d ss sp => programs_never_parsed d ss sp, rfl, rfl, rfl, rfl⟩
